import Mathlib

/-!
go-athenahealth: appointments and subscriptions

A shallow embedding of `athenahealth/appointments.go` and
`athenahealth/subscriptions.go`.

Conventions of the embedding

* a Go pointer `*T` is `Option T` (`none` is `nil`);
* a Go `(T, error)` result is the pair `Option T × Option Error`, a Go
  `error` result is `Option Error` (`none` is the nil error);
* a Go string is a Lean `String`; `len(s) > 0` is `s.length > 0`, both say
  that the string is not empty;
* a Go slice `[]T` is `Option (List T)` (`none` is the nil slice);
* a run-time panic (a nil dereference) is the outer `none` of a result;
* `url.Values` (`map[string][]string`) is an association list with one
  entry per key;
* the `context.Context` argument is only passed on to the transport and is
  left out;
* the transport (`HTTPClient.Get`, `PostForm`, `PutForm`, `DeleteForm`) is a
  parameter: given the path, the query or form and the current value of the
  decode target, it yields the decode target after the call and the error.
-/

namespace Athenahealth

/-! ## Go runtime pieces used by the two files -/

/-- A Go pointer: `none` is `nil`. -/
abbrev Ptr (α : Type) := Option α

/-- A Go `error` value, carried as its message. -/
structure Error where
  msg : String
deriving DecidableEq, Repr

/-- Function `errors.New`. -/
def errorsNew (text : String) : Error := ⟨text⟩

/-- A `float32` carried as its bit pattern; the client never computes with it. -/
structure Float32 where
  bits : Nat
deriving DecidableEq, Repr

/-- Type `url.Values`, a `map[string][]string`: one entry per key. -/
structure Values where
  entries : List (String × List String)
deriving DecidableEq, Repr

/-- The composite literal `url.Values{}`: a present, empty map. -/
def Values.empty : Values := ⟨[]⟩

/-- Lookup in a list of entries. -/
def lookupEntries : List (String × List String) → String → Option (List String)
  | [], _ => none
  | (k, vs) :: rest, key => if k = key then some vs else lookupEntries rest key

/-- The two-result index expression `vs, ok := v[key]`. -/
def Values.lookup (v : Values) (key : String) : Option (List String) :=
  lookupEntries v.entries key

/-- Whether `key` is a key of the map. -/
def Values.Has (v : Values) (key : String) : Bool :=
  (v.lookup key).isSome

/-- Expression `append(v[key], value)` stored back under `key`, on a list of entries. -/
def addEntry : List (String × List String) → String → String → List (String × List String)
  | [], key, value => [(key, [value])]
  | (k, vs) :: rest, key, value =>
    if k = key then (k, vs ++ [value]) :: rest else (k, vs) :: addEntry rest key value

/-- Function `Values.Add`: `v[key] = append(v[key], value)`. -/
def Values.Add (v : Values) (key value : String) : Values :=
  ⟨addEntry v.entries key value⟩

/-- The keys of the map. -/
def Values.keys (v : Values) : List String :=
  v.entries.map Prod.fst

/-- A Go slice: `none` is the nil slice, `some []` an empty slice that is not nil. -/
abbrev Slice (α : Type) := Option (List α)

/-- The builtin `len` of a slice. -/
def len {α : Type} (s : Slice α) : Nat :=
  (s.getD []).length

/-- Function `strconv.FormatBool`. -/
def FormatBool (b : Bool) : String :=
  if b then "true" else "false"

/-- Function `strconv.Itoa`: base-10 rendering, with a leading `-` for a negative number. -/
def Itoa (i : Int) : String :=
  if i < 0 then "-" ++ Nat.repr (-i).toNat else Nat.repr i.toNat

/-! ## net/url escaping -/

/-- The UTF-8 bytes of a character. -/
def utf8Bytes (c : Char) : List Nat :=
  let n := c.toNat
  if n < 0x80 then [n]
  else if n < 0x800 then [0xC0 + n / 64, 0x80 + n % 64]
  else if n < 0x10000 then [0xE0 + n / 4096, 0x80 + n / 64 % 64, 0x80 + n % 64]
  else [0xF0 + n / 262144, 0x80 + n / 4096 % 64, 0x80 + n / 64 % 64, 0x80 + n % 64]

/-- The bytes of a Go string. -/
def stringBytes (s : String) : List Nat :=
  s.data.flatMap utf8Bytes

/-- The escaping modes of `net/url` that the client can reach. -/
inductive encoding where
  | encodePathSegment
  | encodeQueryComponent
deriving DecidableEq, Repr

/-- Function `url.shouldEscape` on a byte, for the two modes above. -/
def shouldEscape (c : Nat) (mode : encoding) : Bool :=
  if (97 ≤ c ∧ c ≤ 122) ∨ (65 ≤ c ∧ c ≤ 90) ∨ (48 ≤ c ∧ c ≤ 57) then false
  else if c = 45 ∨ c = 95 ∨ c = 46 ∨ c = 126 then false
  else if c = 36 ∨ c = 38 ∨ c = 43 ∨ c = 44 ∨ c = 47 ∨ c = 58 ∨ c = 59 ∨ c = 61
      ∨ c = 63 ∨ c = 64 then
    match mode with
    | .encodePathSegment => c = 47 ∨ c = 59 ∨ c = 44 ∨ c = 63
    | .encodeQueryComponent => true
  else true

/-- The table `upperhex = "0123456789ABCDEF"`. -/
def upperhex (n : Nat) : Char :=
  if n < 10 then Char.ofNat (48 + n) else Char.ofNat (55 + n)

/-- One byte of `url.escape`. -/
def escapeByte (mode : encoding) (c : Nat) : List Char :=
  if c = 32 ∧ mode = .encodeQueryComponent then ['+']
  else if shouldEscape c mode then ['%', upperhex (c / 16), upperhex (c % 16)]
  else [Char.ofNat c]

/-- Function `url.escape`. -/
def escape (s : String) (mode : encoding) : String :=
  ⟨(stringBytes s).flatMap (escapeByte mode)⟩

/-- Function `url.QueryEscape`. -/
def QueryEscape (s : String) : String :=
  escape s .encodeQueryComponent

/-- Function `url.PathEscape`. -/
def PathEscape (s : String) : String :=
  escape s .encodePathSegment

/-- Lexicographic order on code points; on UTF-8 it is the byte order that Go
compares strings with. -/
def ltChars : List Char → List Char → Bool
  | _, [] => false
  | [], _ :: _ => true
  | a :: as, b :: bs =>
    if a.toNat < b.toNat then true
    else if b.toNat < a.toNat then false
    else ltChars as bs

/-- The comparison `a < b` of two Go strings. -/
def stringLt (a b : String) : Bool :=
  ltChars a.data b.data

/-- Insertion of a key into a sorted list of keys. -/
def insertKey (k : String) : List String → List String
  | [] => [k]
  | x :: xs => if stringLt k x then k :: x :: xs else x :: insertKey k xs

/-- The keys in increasing order (`slices.Sort(keys)`). -/
def sortKeys (ks : List String) : List String :=
  ks.foldr insertKey []

/-- Function `Values.Encode`: `key=value` pairs, keys sorted, joined by `&`. -/
def Values.Encode (v : Values) : String :=
  "&".intercalate ((sortKeys v.keys).flatMap fun k =>
    ((v.lookup k).getD []).map fun x => QueryEscape k ++ "=" ++ QueryEscape x)

/-! ## time.Time -/

/-- A `time.Time` read in its own location: the civil date and clock that
`Time.Date` and `Time.Clock` report, the nanoseconds, and the offset (seconds
east of UTC) in effect at that instant. -/
structure Time where
  year : Int
  month : Nat
  day : Nat
  hour : Nat
  minute : Nat
  second : Nat
  nsec : Nat
  offset : Int
deriving DecidableEq, Repr

/-- The zero value `time.Time{}`: January 1, year 1, 00:00:00 UTC. -/
def Time.zero : Time := ⟨1, 1, 1, 0, 0, 0, 0, 0⟩

/-- Function `time.isLeap`. -/
def isLeap (year : Int) : Bool :=
  year % 4 = 0 ∧ (year % 100 ≠ 0 ∨ year % 400 = 0)

/-- The table `daysBefore`: days of a non-leap year before the 1-based month. -/
def daysBefore (month : Nat) : Nat :=
  match month with
  | 1 => 0 | 2 => 31 | 3 => 59 | 4 => 90 | 5 => 120 | 6 => 151
  | 7 => 181 | 8 => 212 | 9 => 243 | 10 => 273 | 11 => 304 | 12 => 334
  | _ => 365

/-- The number of days of a month. -/
def daysIn (month : Nat) (year : Int) : Nat :=
  if month = 2 ∧ isLeap year then 29 else daysBefore (month + 1) - daysBefore month

/-- The times that `time.Date` can build: a real calendar day and clock reading. -/
def Time.wellFormed (t : Time) : Bool :=
  1 ≤ t.month ∧ t.month ≤ 12 ∧ 1 ≤ t.day ∧ t.day ≤ daysIn t.month t.year ∧
    t.hour < 24 ∧ t.minute < 60 ∧ t.second < 60 ∧ t.nsec < 1000000000

/-- Days from January 1 of year 1 to the civil day of `t`. -/
def Time.days (t : Time) : Int :=
  let y := t.year - 1
  365 * y + y / 4 - y / 100 + y / 400 + daysBefore t.month
    + (if isLeap t.year ∧ 3 ≤ t.month then 1 else 0) + (t.day - 1 : Int)

/-- Seconds from January 1, year 1, 00:00:00 UTC to the instant of `t`. -/
def Time.sec (t : Time) : Int :=
  t.days * 86400 + t.hour * 3600 + t.minute * 60 + t.second - t.offset

/-- Function `Time.IsZero`: the instant is January 1, year 1, 00:00:00 UTC. -/
def Time.IsZero (t : Time) : Bool :=
  t.sec = 0 ∧ t.nsec = 0

/-- The table `tensDigit`. -/
def tensDigit (u : Nat) : Char := Char.ofNat (48 + u / 10)

/-- The table `onesDigit`. -/
def onesDigit (u : Nat) : Char := Char.ofNat (48 + u % 10)

/-- Function `time.appendInt`: the decimal form of `x`, zero-padded to `width` digits,
after a `-` when `x` is negative. -/
def appendInt (x : Int) (width : Nat) : String :=
  let sign : List Char := if x < 0 then ['-'] else []
  let u := x.natAbs
  if width = 2 ∧ u < 100 then ⟨sign ++ [tensDigit u, onesDigit u]⟩
  else if width = 4 ∧ u < 10000 then
    ⟨sign ++ [tensDigit (u / 100), onesDigit (u / 100), tensDigit (u % 100), onesDigit (u % 100)]⟩
  else
    let digits := Nat.toDigits 10 u
    ⟨sign ++ List.replicate (width - digits.length) '0' ++ digits⟩

/-- The two layouts the client formats with. -/
inductive Layout where
  /-- The layout `"01/02/2006"`. -/
  | date
  /-- The layout `"01/02/2006 15:04:05"`. -/
  | dateTime
deriving DecidableEq, Repr

/-- Function `Time.Format` at the two layouts: `01` is the zero-padded month, `02` the
zero-padded day, `2006` the year, `15`, `04`, `05` the zero-padded hour,
minute and second. -/
def Time.Format (t : Time) : Layout → String
  | .date => appendInt t.month 2 ++ "/" ++ appendInt t.day 2 ++ "/" ++ appendInt t.year 4
  | .dateTime =>
    appendInt t.month 2 ++ "/" ++ appendInt t.day 2 ++ "/" ++ appendInt t.year 4 ++ " "
      ++ appendInt t.hour 2 ++ ":" ++ appendInt t.minute 2 ++ ":" ++ appendInt t.second 2

/-! ## The transport -/

/-- The transport side of `HTTPClient`, seen at the decode target `α` of one
call. `Get path query out` gives the decode target after the call and the
error; the form methods are always called with a nil decode target. -/
structure HTTPClient (α : Type) where
  Get : String → Option Values → α → α × Option Error
  PostForm : String → Option Values → Option Error
  PutForm : String → Option Values → Option Error
  DeleteForm : String → Option Values → Option Error

/-! ## appointments.go -/

structure Appointment where
  AppointmentID : String
  AppointmentStatus : String
  AppointmentType : String
  AppointmentTypeID : String
  ChargeEntryNotRequired : Bool
  Date : String
  DepartmentID : String
  Duration : Int
  EncounterID : String
  PatientAppointmentTypeName : String
  ProviderID : String
  StartTime : String
deriving DecidableEq, Repr

/-- The path of `GetAppointment`: `fmt.Sprintf("/appointments/%s", id)`. -/
def GetAppointment.path (id : String) : String :=
  "/appointments/" ++ id

/-- Method `HTTPClient.GetAppointment`; the decode target is `out := []*Appointment{}`. -/
def GetAppointment (h : HTTPClient (Slice (Ptr Appointment))) (id : String) :
    Ptr Appointment × Option Error :=
  let out : Slice (Ptr Appointment) := some []
  let (out, err) := h.Get (GetAppointment.path id) none out
  match err with
  | some e => (none, some e)
  | none =>
    match out.getD [] with
    | [] => (none, some (errorsNew "Unexpected length returned"))
    | x :: _ => (x, none)

/-- An entry of `AppointmentCustomField.SelectList`. -/
structure SelectListOption where
  OptionValue : String
  OptionID : Int
deriving DecidableEq, Repr

structure AppointmentCustomField where
  CaseSensitive : Bool
  CustomFieldID : Int
  DisallowUpdate : Bool
  Name : String
  Searchable : Bool
  Select : Bool
  Type_ : String
  SelectList : Slice SelectListOption
deriving DecidableEq, Repr

structure listAppointmentCustomFieldsResponse where
  AppointmentCustomFields : Slice (Ptr AppointmentCustomField)
deriving DecidableEq, Repr

/-- Method `HTTPClient.ListAppointmentCustomFields`. The transport is given `&out`, a
pointer to the pointer `out`, so it may leave `out` nil; `out.AppointmentCustomFields`
then panics (the outer `none`). -/
def ListAppointmentCustomFields (h : HTTPClient (Ptr listAppointmentCustomFieldsResponse)) :
    Option (Slice (Ptr AppointmentCustomField) × Option Error) :=
  let out : Ptr listAppointmentCustomFieldsResponse := some ⟨none⟩
  let (out, err) := h.Get "/appointments/customfields" none out
  match err with
  | some e => some (none, some e)
  | none =>
    match out with
    | none => none
    | some out => some (out.AppointmentCustomFields, none)

/-- The field `BookedAppointment.AppointmentCopay`. -/
structure AppointmentCopay where
  CollectedForOther : Int
  CollectedForAppointment : Int
  InsuranceCopay : Float32
deriving DecidableEq, Repr

/-- An entry of `BookedAppointment.AppointmentNotes`. -/
structure BookedAppointmentNote where
  DisplayOnSchedule : Bool
  Text : String
  ID : Int
deriving DecidableEq, Repr

structure BookedAppointment where
  AppointmentID : String
  AppointmentCopay : AppointmentCopay
  AppointmentNotes : Slice BookedAppointmentNote
  AppointmentStatus : String
  AppointmentType : String
  AppointmentTypeID : String
  CancelledBy : String
  CancelledDatetime : String
  CancelReasonID : String
  CancelReasonName : String
  CancelReasonNoShow : Bool
  CancelReasonSlotAvailable : Bool
  ChargeEntryNotRequired : Bool
  CoordinatorEnterprise : Bool
  Copay : Float32
  Date : String
  DepartmentID : String
  Duration : Int
  EncounterID : String
  HL7ProviderID : Int
  LastModified : String
  LastModifiedBy : String
  PatientAppointmentTypeName : String
  PatientID : String
  ProviderID : String
  ScheduledBy : String
  ScheduledDatetime : String
  StartTime : String
  TemplateAppointmentID : String
  TemplateAppointmentTypeID : String
deriving DecidableEq, Repr

/-- Modelled from the spec: `PaginationOptions` is declared outside the two
files; `ListBookedAppointments` reads its integer fields `Limit` and `Offset`
(the `limit`/`offset` pagination of the spec, §4.1). -/
structure PaginationOptions where
  Limit : Int
  Offset : Int
deriving DecidableEq, Repr

/-- Modelled from the spec: `PaginationResult` is declared outside the two
files. It is the PageCursor of §3, `{ nextOffset, previousOffset, totalCount }`,
each field independently optional. -/
structure PaginationResult where
  NextOffset : Option Int
  PreviousOffset : Option Int
  TotalCount : Option Int
deriving DecidableEq, Repr

/-- Modelled from the spec: `PaginationResponse` is declared outside the two
files. It holds the raw pagination fields `next`, `previous` and `totalcount`
of an enveloped list (§3, §4.4); an empty string, or no count, is a field that is
empty or missing. -/
structure PaginationResponse where
  Next : String
  Previous : String
  TotalCount : Option Int
deriving DecidableEq, Repr

/-- The characters that follow the first `offset=` of a raw pagination field. -/
def afterOffsetToken : List Char → Option (List Char)
  | [] => none
  | c :: cs =>
    if "offset=".data.isPrefixOf (c :: cs) then some ((c :: cs).drop 7)
    else afterOffsetToken cs

/-- The number written by a list of decimal digits. -/
def digitsValue (ds : List Char) : Nat :=
  ds.foldl (fun n c => 10 * n + (c.toNat - 48)) 0

/-- Modelled from the spec: the offset of a raw `next`/`previous` field (§4.2):
the digits of its `offset=<digits>` token, absent when there is no such token or
no digit follows it. -/
def parseOffset (raw : String) : Option Int :=
  match afterOffsetToken raw.data with
  | none => none
  | some rest =>
    let ds := rest.takeWhile Char.isDigit
    if ds.isEmpty then none else some (digitsValue ds)

/-- Modelled from the spec: `makePaginationResult` is defined outside the two
files. It is the fold of §4.2: absent when all three raw inputs are empty or
missing; otherwise each offset is extracted on its own and the total count is
copied through. -/
def makePaginationResult (next previous : String) (totalCount : Option Int) :
    Ptr PaginationResult :=
  if next = "" ∧ previous = "" ∧ totalCount = none then none
  else some ⟨parseOffset next, parseOffset previous, totalCount⟩

structure ListBookedAppointmentsOptions where
  DepartmentID : String
  EndDate : Time
  PatientID : String
  ProviderID : String
  StartDate : Time
  AppointmentStatus : String
  Pagination : Ptr PaginationOptions
deriving DecidableEq, Repr

structure ListBookedAppointmentsResult where
  BookedAppointments : Slice (Ptr BookedAppointment)
  Pagination : Ptr PaginationResult
deriving DecidableEq, Repr

structure listBookedAppointmentsResponse where
  Appointments : Slice (Ptr BookedAppointment)
  toPaginationResponse : PaginationResponse
deriving DecidableEq, Repr

/-- The query that `ListBookedAppointments` builds from its options. -/
def ListBookedAppointments.query (opts : Ptr ListBookedAppointmentsOptions) : Values :=
  let q := Values.empty
  match opts with
  | none => q
  | some opts =>
    let q := if opts.ProviderID.length > 0 then q.Add "providerid" opts.ProviderID else q
    let q := if opts.DepartmentID.length > 0 then q.Add "departmentid" opts.DepartmentID else q
    let q := if opts.PatientID.length > 0 then q.Add "patientid" opts.PatientID else q
    let q := if !opts.StartDate.IsZero then q.Add "startdate" (opts.StartDate.Format .date) else q
    let q := if !opts.EndDate.IsZero then q.Add "enddate" (opts.EndDate.Format .date) else q
    let q := if opts.AppointmentStatus.length > 0 then
      q.Add "appointmentstatus" opts.AppointmentStatus else q
    match opts.Pagination with
    | none => q
    | some p =>
      let q := if p.Limit > 0 then q.Add "limit" (Itoa p.Limit) else q
      let q := if p.Offset > 0 then q.Add "offset" (Itoa p.Offset) else q
      q

/-- Method `HTTPClient.ListBookedAppointments`. -/
def ListBookedAppointments (h : HTTPClient listBookedAppointmentsResponse)
    (opts : Ptr ListBookedAppointmentsOptions) :
    Ptr ListBookedAppointmentsResult × Option Error :=
  let out : listBookedAppointmentsResponse := ⟨none, ⟨"", "", none⟩⟩
  let q := ListBookedAppointments.query opts
  let (out, err) := h.Get "/appointments/booked" (some q) out
  match err with
  | some e => (none, some e)
  | none =>
    (some ⟨out.Appointments,
      makePaginationResult out.toPaginationResponse.Next out.toPaginationResponse.Previous
        out.toPaginationResponse.TotalCount⟩, none)

structure ListChangedAppointmentsOptions where
  DepartmentID : String
  LeaveUnprocessed : Bool
  PatientID : String
  ProviderID : String
  ShowPatientDetail : Bool
  ShowProcessedEndDatetime : Time
  ShowProcessedStartDatetime : Time
deriving DecidableEq, Repr

structure listChangedAppointmentsResponse where
  ChangedAppointments : Slice (Ptr BookedAppointment)
deriving DecidableEq, Repr

/-- The query that `ListChangedAppointments` builds from its options. -/
def ListChangedAppointments.query (opts : Ptr ListChangedAppointmentsOptions) : Values :=
  let q := Values.empty
  match opts with
  | none => q
  | some opts =>
    let q := if opts.ProviderID.length > 0 then q.Add "providerid" opts.ProviderID else q
    let q := if opts.DepartmentID.length > 0 then q.Add "departmentid" opts.DepartmentID else q
    let q := if opts.PatientID.length > 0 then q.Add "patientid" opts.PatientID else q
    let q := if opts.ShowPatientDetail then
      q.Add "showpatientdetail" (FormatBool opts.ShowPatientDetail) else q
    let q := if !opts.ShowProcessedEndDatetime.IsZero then
      q.Add "showprocessedenddatetime" (opts.ShowProcessedEndDatetime.Format .dateTime) else q
    let q := if !opts.ShowProcessedStartDatetime.IsZero then
      q.Add "showprocessedstartdatetime" (opts.ShowProcessedStartDatetime.Format .dateTime)
      else q
    let q := if opts.LeaveUnprocessed then
      q.Add "leaveunprocessed" (FormatBool opts.LeaveUnprocessed) else q
    q

/-- Method `HTTPClient.ListChangedAppointments`. -/
def ListChangedAppointments (h : HTTPClient listChangedAppointmentsResponse)
    (opts : Ptr ListChangedAppointmentsOptions) :
    Slice (Ptr BookedAppointment) × Option Error :=
  let out : listChangedAppointmentsResponse := ⟨none⟩
  let q := ListChangedAppointments.query opts
  let (out, err) := h.Get "/appointments/changed" (some q) out
  match err with
  | some e => (none, some e)
  | none => (out.ChangedAppointments, none)

structure CreateAppointmentNoteOptions where
  AppointmentID : String
  DisplayOnSchedule : Bool
  NoteText : String
deriving DecidableEq, Repr

/-- The form that `CreateAppointmentNote` builds from its options (`var form
url.Values` is the nil map). -/
def CreateAppointmentNote.form (opts : Ptr CreateAppointmentNoteOptions) : Option Values :=
  match opts with
  | none => none
  | some opts =>
    let form := Values.empty
    let form := if opts.AppointmentID.length > 0 then
      form.Add "appointmentid" opts.AppointmentID else form
    let form := if opts.DisplayOnSchedule then
      form.Add "displayonschedule" (FormatBool opts.DisplayOnSchedule) else form
    let form := if opts.NoteText.length > 0 then form.Add "notetext" opts.NoteText else form
    some form

/-- The path of `CreateAppointmentNote` and of `ListAppointmentNotes`:
`fmt.Sprintf("/appointments/%s/notes", appointmentID)`. -/
def notesPath (appointmentID : String) : String :=
  "/appointments/" ++ appointmentID ++ "/notes"

/-- Method `HTTPClient.CreateAppointmentNote`. -/
def CreateAppointmentNote {α : Type} (h : HTTPClient α) (appointmentID : String)
    (opts : Ptr CreateAppointmentNoteOptions) : Option Error :=
  let form := CreateAppointmentNote.form opts
  let err := h.PostForm (notesPath appointmentID) form
  match err with
  | some e => some e
  | none => none

structure AppointmentNote where
  Created : String
  CreatedBy : String
  DisplayOnSchedule : Bool
  NoteID : String
  NoteText : String
deriving DecidableEq, Repr

structure ListAppointmentNotesOptions where
  AppointmentID : String
  ShowDeleted : Bool
deriving DecidableEq, Repr

structure listAppointmentNotesResponse where
  Notes : Slice (Ptr AppointmentNote)
deriving DecidableEq, Repr

/-- The query that `ListAppointmentNotes` builds from its options. -/
def ListAppointmentNotes.query (opts : Ptr ListAppointmentNotesOptions) : Values :=
  let q := Values.empty
  match opts with
  | none => q
  | some opts =>
    let q := if opts.AppointmentID.length > 0 then
      q.Add "appointmentid" opts.AppointmentID else q
    let q := if opts.ShowDeleted then q.Add "showdeleted" (FormatBool opts.ShowDeleted) else q
    q

/-- Method `HTTPClient.ListAppointmentNotes`. -/
def ListAppointmentNotes (h : HTTPClient listAppointmentNotesResponse)
    (appointmentID : String) (opts : Ptr ListAppointmentNotesOptions) :
    Slice (Ptr AppointmentNote) × Option Error :=
  let out : listAppointmentNotesResponse := ⟨none⟩
  let q := ListAppointmentNotes.query opts
  let (out, err) := h.Get (notesPath appointmentID) (some q) out
  match err with
  | some e => (none, some e)
  | none => (out.Notes, none)

structure UpdateAppointmentNoteOptions where
  AppointmentID : String
  DisplayOnSchedule : Bool
  NoteID : String
  NoteText : String
deriving DecidableEq, Repr

/-- The form that `UpdateAppointmentNote` builds from its options. -/
def UpdateAppointmentNote.form (opts : Ptr UpdateAppointmentNoteOptions) : Option Values :=
  match opts with
  | none => none
  | some opts =>
    let form := Values.empty
    let form := if opts.AppointmentID.length > 0 then
      form.Add "appointmentid" opts.AppointmentID else form
    let form := if opts.DisplayOnSchedule then
      form.Add "displayonschedule" (FormatBool opts.DisplayOnSchedule) else form
    let form := if opts.NoteID.length > 0 then form.Add "noteid" opts.NoteID else form
    let form := if opts.NoteText.length > 0 then form.Add "notetext" opts.NoteText else form
    some form

/-- The path of `UpdateAppointmentNote` and of `DeleteAppointmentNote`:
`fmt.Sprintf("/appointments/%s/notes/%s", appointmentID, noteID)`. -/
def notePath (appointmentID noteID : String) : String :=
  "/appointments/" ++ appointmentID ++ "/notes/" ++ noteID

/-- Method `HTTPClient.UpdateAppointmentNote`. -/
def UpdateAppointmentNote {α : Type} (h : HTTPClient α) (appointmentID noteID : String)
    (opts : Ptr UpdateAppointmentNoteOptions) : Option Error :=
  let form := UpdateAppointmentNote.form opts
  let err := h.PutForm (notePath appointmentID noteID) form
  match err with
  | some e => some e
  | none => none

structure DeleteAppointmentNoteOptions where
  AppointmentID : String
  NoteID : String
deriving DecidableEq, Repr

/-- The form that `DeleteAppointmentNote` builds from its options. -/
def DeleteAppointmentNote.form (opts : Ptr DeleteAppointmentNoteOptions) : Option Values :=
  match opts with
  | none => none
  | some opts =>
    let form := Values.empty
    let form := if opts.AppointmentID.length > 0 then
      form.Add "appointmentid" opts.AppointmentID else form
    let form := if opts.NoteID.length > 0 then form.Add "noteid" opts.NoteID else form
    some form

/-- Method `HTTPClient.DeleteAppointmentNote`. -/
def DeleteAppointmentNote {α : Type} (h : HTTPClient α) (appointmentID noteID : String)
    (opts : Ptr DeleteAppointmentNoteOptions) : Option Error :=
  let form := DeleteAppointmentNote.form opts
  let err := h.DeleteForm (notePath appointmentID noteID) form
  match err with
  | some e => some e
  | none => none

/-! ## subscriptions.go -/

structure SubscriptionEvent where
  EventName : String
deriving DecidableEq, Repr

structure Subscription where
  Status : String
  Subscriptions : Slice (Ptr SubscriptionEvent)
deriving DecidableEq, Repr

/-- The path of `GetSubscription`, `Subscribe` and `Unsubscribe`:
`fmt.Sprintf("/%s/changed/subscription", feedType)`. -/
def subscriptionPath (feedType : String) : String :=
  "/" ++ feedType ++ "/changed/subscription"

/-- Method `HTTPClient.GetSubscription`. -/
def GetSubscription (h : HTTPClient Subscription) (feedType : String) :
    Ptr Subscription × Option Error :=
  let out : Subscription := ⟨"", none⟩
  let (out, err) := h.Get (subscriptionPath feedType) none out
  match err with
  | some e => (none, some e)
  | none => (some out, none)

structure listSubscriptionEventsResponse where
  Subscriptions : Slice (Ptr SubscriptionEvent)
deriving DecidableEq, Repr

/-- The path of `ListSubscriptionEvents`:
`fmt.Sprintf("/%s/changed/subscription/events", feedType)`. -/
def subscriptionEventsPath (feedType : String) : String :=
  "/" ++ feedType ++ "/changed/subscription/events"

/-- Method `HTTPClient.ListSubscriptionEvents`. The transport is given `&out`, so it may
leave `out` nil; `out.Subscriptions` then panics (the outer `none`). -/
def ListSubscriptionEvents (h : HTTPClient (Ptr listSubscriptionEventsResponse))
    (feedType : String) : Option (Slice (Ptr SubscriptionEvent) × Option Error) :=
  let out : Ptr listSubscriptionEventsResponse := some ⟨none⟩
  let (out, err) := h.Get (subscriptionEventsPath feedType) none out
  match err with
  | some e => some (none, some e)
  | none =>
    match out with
    | none => none
    | some out => some (out.Subscriptions, none)

structure SubscribeOptions where
  EventName : String
deriving DecidableEq, Repr

/-- The form that `Subscribe` builds from its options. -/
def Subscribe.form (opts : Ptr SubscribeOptions) : Option Values :=
  match opts with
  | none => none
  | some opts =>
    let form := Values.empty
    let form := form.Add "eventname" opts.EventName
    some form

/-- Method `HTTPClient.Subscribe`. -/
def Subscribe {α : Type} (h : HTTPClient α) (feedType : String) (opts : Ptr SubscribeOptions) :
    Option Error :=
  let form := Subscribe.form opts
  let err := h.PostForm (subscriptionPath feedType) form
  match err with
  | some e => some e
  | none => none

structure UnsubscribeOptions where
  EventName : String
deriving DecidableEq, Repr

/-- The form that `Unsubscribe` builds from its options. -/
def Unsubscribe.form (opts : Ptr UnsubscribeOptions) : Option Values :=
  match opts with
  | none => none
  | some opts =>
    let form := Values.empty
    let form := form.Add "eventname" opts.EventName
    some form

/-- Method `HTTPClient.Unsubscribe`. -/
def Unsubscribe {α : Type} (h : HTTPClient α) (feedType : String)
    (opts : Ptr UnsubscribeOptions) : Option Error :=
  let form := Unsubscribe.form opts
  let err := h.DeleteForm (subscriptionPath feedType) form
  match err with
  | some e => some e
  | none => none

/-! ## The date formats in the words of the specification -/

/-- The decimal digit `d` as a character. -/
def digitChar (d : Nat) : Char := Char.ofNat (48 + d)

/-- The last two decimal digits of `n`. -/
def twoDigits (n : Nat) : List Char :=
  [digitChar (n / 10 % 10), digitChar (n % 10)]

/-- The last four decimal digits of `n`. -/
def fourDigits (n : Nat) : List Char :=
  [digitChar (n / 1000 % 10), digitChar (n / 100 % 10), digitChar (n / 10 % 10),
    digitChar (n % 10)]

/-- Format `MM/DD/YYYY` as the specification words it: two-digit month, `/`, two-digit
day, `/`, four-digit year. -/
def specDate (t : Time) : String :=
  ⟨twoDigits t.month ++ ['/'] ++ twoDigits t.day ++ ['/'] ++ fourDigits t.year.toNat⟩

/-- Format `MM/DD/YYYY HH:MM:SS` as the specification words it: the date, a space, and
the zero-padded 24-hour clock. -/
def specDateTime (t : Time) : String :=
  ⟨(specDate t).data ++ [' '] ++ twoDigits t.hour ++ [':'] ++ twoDigits t.minute ++ [':']
    ++ twoDigits t.second⟩

/-- Whether a string has the shape `MM/DD/YYYY`: ten characters, digits but for
the two slashes. -/
def isMDY (s : String) : Bool :=
  match s.data with
  | [m1, m2, s1, d1, d2, s2, y1, y2, y3, y4] =>
    m1.isDigit && m2.isDigit && s1 = '/' && d1.isDigit && d2.isDigit && s2 = '/' &&
      y1.isDigit && y2.isDigit && y3.isDigit && y4.isDigit
  | _ => false

/-- Whether every character of a path value is an ASCII character that
`url.PathEscape` leaves as it is. -/
def needsNoEscape (v : String) : Bool :=
  v.data.all fun c => decide (c.toNat < 128) && !shouldEscape c.toNat .encodePathSegment

/-! ## Concrete inputs used by the closed statements below -/

/-- A transport whose every call fails with the error `e`. -/
def failingClient {α : Type} (e : Error) : HTTPClient α :=
  ⟨fun _ _ out => (out, some e), fun _ _ => some e, fun _ _ => some e, fun _ _ => some e⟩

/-- A transport whose `Get` succeeds and leaves `out` in the decode target. -/
def respondingClient {α : Type} (out : α) : HTTPClient α :=
  ⟨fun _ _ _ => (out, none), fun _ _ => none, fun _ _ => none, fun _ _ => none⟩

/-- An appointment with every field at its zero value but the id. -/
def sampleAppointment (id : String) : Appointment :=
  ⟨id, "", "", "", false, "", "", 0, "", "", "", ""⟩

/-- Call `time.Date(year, month, day, hour, minute, second, 0, time.UTC)`, for
arguments already in range. -/
def utcTime (year : Int) (month day hour minute second : Nat) : Time :=
  ⟨year, month, day, hour, minute, second, 0, 0⟩

/-- The options of `TestHTTPClient_ListBookedAppointments`, with a chosen start date. -/
def bookedOptions (start : Time) : ListBookedAppointmentsOptions :=
  ⟨"", utcTime 2020 6 3 0 0 0, "", "1", start, "x", none⟩

/-- The options of `TestHTTPClient_ListChangedAppointments`. -/
def changedOptions : ListChangedAppointmentsOptions :=
  ⟨"", false, "", "1", false, utcTime 2020 6 2 12 30 45, utcTime 2020 6 1 15 30 45⟩

/-- The options of `TestHTTPClient_CreateAppointmentNote`. -/
def createNoteOptions : CreateAppointmentNoteOptions :=
  ⟨"1", false, "test note"⟩

/-- A booked appointment with every field at its zero value but the id. -/
def sampleBooked (id : String) : BookedAppointment :=
  ⟨id, ⟨0, 0, ⟨0⟩⟩, none, "", "", "", "", "", "", "", false, false, false, false, ⟨0⟩, "", "",
    0, "", 0, "", "", "", "", "", "", "", "", "", ""⟩

/-- The envelope of the specification, §8: two appointments, `next` ending in
`offset=30`, `previous` ending in `offset=10`, `totalcount` 2. -/
def sampleEnvelope (a1 a2 : Ptr BookedAppointment) : listBookedAppointmentsResponse :=
  ⟨some [a1, a2], ⟨"...offset=30", "...offset=10", some 2⟩⟩

/-- The zero value `ListBookedAppointmentsOptions{}`: empty strings, zero times,
a nil `Pagination`. -/
def zeroBookedOptions : ListBookedAppointmentsOptions :=
  ⟨"", Time.zero, "", "", Time.zero, "", none⟩

/-- The zero value `ListChangedAppointmentsOptions{}`. -/
def zeroChangedOptions : ListChangedAppointmentsOptions :=
  ⟨"", false, "", "", false, Time.zero, Time.zero⟩

/-- The zero value `ListAppointmentNotesOptions{}`. -/
def zeroNotesOptions : ListAppointmentNotesOptions :=
  ⟨"", false⟩

/-! ## Lemmas on `url.Values` -/

theorem lookupEntries_addEntry (es : List (String × List String)) (k x k' : String) :
    lookupEntries (addEntry es k x) k' =
      if k = k' then some ((lookupEntries es k').getD [] ++ [x]) else lookupEntries es k' := by
  induction es with
  | nil =>
    by_cases hk : k = k' <;> simp [addEntry, lookupEntries, hk]
  | cons p rest ih =>
    obtain ⟨a, vs⟩ := p
    by_cases ha : a = k
    · subst ha
      by_cases hk : a = k' <;> simp [addEntry, lookupEntries, hk]
    · by_cases hk : k = k'
      · subst hk
        simp [addEntry, lookupEntries, ha, ih]
      · by_cases hak : a = k'
        · subst hak
          simp [addEntry, lookupEntries, ha, hk]
        · simp [addEntry, lookupEntries, ha, hk, hak, ih]

theorem Values.lookup_Add (q : Values) (k x k' : String) :
    (q.Add k x).lookup k' =
      if k = k' then some ((q.lookup k').getD [] ++ [x]) else q.lookup k' := by
  simp [Values.Add, Values.lookup, lookupEntries_addEntry]

theorem Values.lookup_empty (k : String) : Values.empty.lookup k = none := rfl

theorem Values.lookup_ite_Add (c : Prop) [Decidable c] (q : Values) (k x k' : String) :
    (if c then q.Add k x else q).lookup k' =
      if c ∧ k = k' then some ((q.lookup k').getD [] ++ [x]) else q.lookup k' := by
  by_cases hc : c <;> simp [hc, Values.lookup_Add]

theorem String.length_pos_iff_ne_empty (s : String) : s.length > 0 ↔ s ≠ "" := by
  obtain ⟨l⟩ := s
  cases l with
  | nil => simp [String.length]
  | cons a as =>
    simp only [String.length, List.length_cons, gt_iff_lt, Nat.zero_lt_succ, ne_eq, true_iff]
    intro h
    have := congrArg String.data h
    simp at this

/-! ## C1 -/

/-- C1, refutation. With the transport succeeding on the one-element array
whose element is a nil pointer (the JSON `[null]`), `GetAppointment` returns a nil
appointment together with a nil error. -/
theorem C1_nil_element_counterexample :
    (respondingClient (some [none]) : HTTPClient (Slice (Ptr Appointment))).Get
        (GetAppointment.path "1") none (some []) = (some [none], none) ∧
      GetAppointment (respondingClient (some [none])) "1" = (none, none) := by
  decide

/-- C1, amended. When the transport succeeds with the decoded array `xs`,
`GetAppointment` returns an error and no appointment if and only if `xs` is empty;
when `xs` is not empty it returns its first element with no error, whatever
follows; and it returns a nil appointment with a nil error exactly when `xs` is
not empty and its first element is a nil pointer. -/
theorem C1_GetAppointment_first_element (h : HTTPClient (Slice (Ptr Appointment)))
    (id : String) (xs : Slice (Ptr Appointment))
    (hok : h.Get (GetAppointment.path id) none (some []) = (xs, none)) :
    (((GetAppointment h id).2 ≠ none ∧ (GetAppointment h id).1 = none) ↔ len xs = 0) ∧
      (∀ x rest, xs = some (x :: rest) → GetAppointment h id = (x, none)) ∧
      (GetAppointment h id = (none, none) ↔ ∃ rest, xs = some (none :: rest)) := by
  unfold GetAppointment
  simp only [hok]
  rcases xs with _ | _ | ⟨x, rest⟩
  · simp [len]
  · simp [len]
  · cases x <;> simp [len]

/-- C1, amended, at concrete transports: an empty array, a two-element array
and an array that starts with a nil pointer. -/
theorem C1_GetAppointment_first_element_witness :
    (((GetAppointment (respondingClient (some [])) "1").2 ≠ none ∧
          (GetAppointment (respondingClient (some [])) "1").1 = none) ↔
        len (some [] : Slice (Ptr Appointment)) = 0) ∧
      (∀ x rest, (some [some (sampleAppointment "1"), some (sampleAppointment "2")]
            : Slice (Ptr Appointment)) = some (x :: rest) →
          GetAppointment (respondingClient
            (some [some (sampleAppointment "1"), some (sampleAppointment "2")])) "1"
            = (x, none)) ∧
      (GetAppointment (respondingClient (some [none, some (sampleAppointment "2")])) "1"
          = (none, none) ↔
        ∃ rest, (some [none, some (sampleAppointment "2")] : Slice (Ptr Appointment))
          = some (none :: rest)) :=
  ⟨(C1_GetAppointment_first_element (respondingClient (some [])) "1" (some []) rfl).1,
    (C1_GetAppointment_first_element (respondingClient
      (some [some (sampleAppointment "1"), some (sampleAppointment "2")])) "1" _ rfl).2.1,
    (C1_GetAppointment_first_element (respondingClient
      (some [none, some (sampleAppointment "2")])) "1" _ rfl).2.2⟩

/-! ## C2 -/

/-- C2. For non-nil options of `ListBookedAppointments` and of
`ListChangedAppointments`, each string field puts its key in the query exactly
when it is not empty, and the key then has the field's string, unchanged, as its
single value. `ListChangedAppointmentsOptions` has no `AppointmentStatus` field, and
its query never has the key `appointmentstatus`. -/
theorem C2_string_fields_verbatim (o : ListBookedAppointmentsOptions)
    (c : ListChangedAppointmentsOptions) :
    ((ListBookedAppointments.query (some o)).lookup "providerid" =
        if o.ProviderID = "" then none else some [o.ProviderID]) ∧
      ((ListBookedAppointments.query (some o)).lookup "departmentid" =
        if o.DepartmentID = "" then none else some [o.DepartmentID]) ∧
      ((ListBookedAppointments.query (some o)).lookup "patientid" =
        if o.PatientID = "" then none else some [o.PatientID]) ∧
      ((ListBookedAppointments.query (some o)).lookup "appointmentstatus" =
        if o.AppointmentStatus = "" then none else some [o.AppointmentStatus]) ∧
      ((ListChangedAppointments.query (some c)).lookup "providerid" =
        if c.ProviderID = "" then none else some [c.ProviderID]) ∧
      ((ListChangedAppointments.query (some c)).lookup "departmentid" =
        if c.DepartmentID = "" then none else some [c.DepartmentID]) ∧
      ((ListChangedAppointments.query (some c)).lookup "patientid" =
        if c.PatientID = "" then none else some [c.PatientID]) ∧
      (ListChangedAppointments.query (some c)).lookup "appointmentstatus" = none := by
  refine ⟨?_, ?_, ?_, ?_, ?_, ?_, ?_, ?_⟩
  all_goals
    simp only [ListBookedAppointments.query, ListChangedAppointments.query]
    cases o.Pagination <;>
    simp only [Values.lookup_ite_Add, Values.lookup_empty] <;>
    simp [String.length_pos_iff_ne_empty]

/-! ## C3 -/

/-- C3, the code at the failing input. With `EventName` left empty, the form of
`Subscribe` and the form of `Unsubscribe` still hold the key `eventname`, with the
empty string as its value: the key is added without a test, for every
`EventName`. -/
theorem C3_empty_eventname_is_sent :
    Subscribe.form (some ⟨""⟩) = some ⟨[("eventname", [""])]⟩ ∧
      Unsubscribe.form (some ⟨""⟩) = some ⟨[("eventname", [""])]⟩ ∧
      (∀ o : SubscribeOptions, ∃ f, Subscribe.form (some o) = some f ∧
        f.lookup "eventname" = some [o.EventName]) ∧
      (∀ o : UnsubscribeOptions, ∃ f, Unsubscribe.form (some o) = some f ∧
        f.lookup "eventname" = some [o.EventName]) := by
  refine ⟨by decide, by decide, ?_, ?_⟩
  · intro o
    exact ⟨_, rfl, by simp [Values.lookup_Add, Values.lookup_empty]⟩
  · intro o
    exact ⟨_, rfl, by simp [Values.lookup_Add, Values.lookup_empty]⟩

/-! ## C4 -/

theorem appendInt_two (n : Nat) (h : n < 100) : appendInt n 2 = ⟨twoDigits n⟩ := by
  have h10 : n / 10 % 10 = n / 10 := Nat.mod_eq_of_lt (by omega)
  have hs : ¬ ((n : Int) < 0) := by omega
  simp [appendInt, h, twoDigits, tensDigit, onesDigit, digitChar, h10, hs]

theorem appendInt_four (y : Int) (h0 : 0 ≤ y) (h : y ≤ 9999) :
    appendInt y 4 = ⟨fourDigits y.toNat⟩ := by
  obtain ⟨n, rfl⟩ := Int.eq_ofNat_of_zero_le h0
  have hn : n < 10000 := by omega
  have e1 : n / 100 / 10 = n / 1000 % 10 := by omega
  have e2 : n / 100 % 10 = n / 100 % 10 := rfl
  have e3 : n % 100 / 10 = n / 10 % 10 := by omega
  have e4 : n % 100 % 10 = n % 10 := by omega
  have hs : ¬ ((n : Int) < 0) := by omega
  simp [appendInt, hn, fourDigits, tensDigit, onesDigit, digitChar, e1, e3, e4, hs]

theorem daysIn_le (month : Nat) (year : Int) (h : month ≤ 12) : daysIn month year ≤ 31 := by
  unfold daysIn
  split
  · omega
  · interval_cases month <;> simp [daysBefore]

theorem digitChar_isDigit (d : Nat) (h : d < 10) : (digitChar d).isDigit = true := by
  interval_cases d <;> rfl

theorem isMDY_specDate (t : Time) : isMDY (specDate t) = true := by
  have m10 : ∀ n : Nat, (digitChar (n % 10)).isDigit = true :=
    fun n => digitChar_isDigit _ (Nat.mod_lt _ (by decide))
  simp [isMDY, specDate, twoDigits, fourDigits, m10]

theorem Format_date_eq_spec (t : Time) (hw : t.wellFormed = true) (h0 : 0 ≤ t.year)
    (h1 : t.year ≤ 9999) : t.Format .date = specDate t := by
  simp only [Time.wellFormed, decide_eq_true_eq] at hw
  have hd := daysIn_le t.month t.year (by omega)
  have a1 := appendInt_two t.month (by omega)
  have a2 := appendInt_two t.day (by omega)
  have a3 := appendInt_four t.year h0 h1
  simp only [Nat.cast_ofNat] at a1 a2
  simp only [Time.Format, specDate, a1, a2, a3]
  rfl

theorem Format_dateTime_eq_spec (t : Time) (hw : t.wellFormed = true) (h0 : 0 ≤ t.year)
    (h1 : t.year ≤ 9999) : t.Format .dateTime = specDateTime t := by
  have hdate := Format_date_eq_spec t hw h0 h1
  simp only [Time.wellFormed, decide_eq_true_eq] at hw
  have a4 := appendInt_two t.hour (by omega)
  have a5 := appendInt_two t.minute (by omega)
  have a6 := appendInt_two t.second (by omega)
  simp only [Time.Format] at hdate
  simp only [Time.Format, specDateTime, hdate, a4, a5, a6]
  rfl

/-- C4, refutation. The start date January 1 of the year 10000 is a time that
`time.Date` builds and is not the zero time; its `startdate` value is
`"01/01/10000"`, whose year has five digits: it is not of the shape `MM/DD/YYYY`
and differs from the two-digit month, two-digit day and four-digit year. -/
theorem C4_five_digit_year_counterexample :
    (utcTime 10000 1 1 0 0 0).wellFormed = true ∧
      (utcTime 10000 1 1 0 0 0).IsZero = false ∧
      (ListBookedAppointments.query (some (bookedOptions (utcTime 10000 1 1 0 0 0)))).lookup
        "startdate" = some ["01/01/10000"] ∧
      isMDY "01/01/10000" = false ∧
      specDate (utcTime 10000 1 1 0 0 0) ≠ "01/01/10000" := by
  decide

/-- C4, amended. Each of `startdate`, `enddate` (booked appointments) and
`showprocessedstartdatetime`, `showprocessedenddatetime` (changed appointments)
is in the query exactly when its date field is not the zero time, and its single
value is then the field formatted in its own zone. For a well-formed time whose
year is from 0 to 9999 the date format is the two-digit month, `/`, two-digit
day, `/`, four-digit year, and the date-time format is that date, a space and the
zero-padded 24-hour `HH:MM:SS`. 2020-06-01 gives `"06/01/2020"` and
2020-06-01T15:30:45Z gives `"06/01/2020 15:30:45"`; the zero value `time.Time{}` is
the zero time. -/
theorem C4_date_fields (o : ListBookedAppointmentsOptions)
    (c : ListChangedAppointmentsOptions) :
    ((ListBookedAppointments.query (some o)).lookup "startdate" =
        if o.StartDate.IsZero then none else some [o.StartDate.Format .date]) ∧
      ((ListBookedAppointments.query (some o)).lookup "enddate" =
        if o.EndDate.IsZero then none else some [o.EndDate.Format .date]) ∧
      ((ListChangedAppointments.query (some c)).lookup "showprocessedstartdatetime" =
        if c.ShowProcessedStartDatetime.IsZero then none
        else some [c.ShowProcessedStartDatetime.Format .dateTime]) ∧
      ((ListChangedAppointments.query (some c)).lookup "showprocessedenddatetime" =
        if c.ShowProcessedEndDatetime.IsZero then none
        else some [c.ShowProcessedEndDatetime.Format .dateTime]) ∧
      (∀ t : Time, t.wellFormed = true → 0 ≤ t.year → t.year ≤ 9999 →
        t.Format .date = specDate t ∧ isMDY (t.Format .date) = true ∧
          t.Format .dateTime = specDateTime t) ∧
      (ListBookedAppointments.query (some (bookedOptions (utcTime 2020 6 1 0 0 0)))).lookup
        "startdate" = some ["06/01/2020"] ∧
      (ListChangedAppointments.query (some changedOptions)).lookup
        "showprocessedstartdatetime" = some ["06/01/2020 15:30:45"] ∧
      Time.zero.IsZero = true := by
  refine ⟨?_, ?_, ?_, ?_, ?_, by decide, by decide, by decide⟩
  · simp only [ListBookedAppointments.query]
    cases o.Pagination <;>
    simp only [Values.lookup_ite_Add, Values.lookup_empty] <;>
    cases o.StartDate.IsZero <;> simp
  · simp only [ListBookedAppointments.query]
    cases o.Pagination <;>
    simp only [Values.lookup_ite_Add, Values.lookup_empty] <;>
    cases o.EndDate.IsZero <;> simp
  · simp only [ListChangedAppointments.query]
    simp only [Values.lookup_ite_Add, Values.lookup_empty]
    cases c.ShowProcessedStartDatetime.IsZero <;> simp
  · simp only [ListChangedAppointments.query]
    simp only [Values.lookup_ite_Add, Values.lookup_empty]
    cases c.ShowProcessedEndDatetime.IsZero <;> simp
  · intro t hw h0 h1
    refine ⟨Format_date_eq_spec t hw h0 h1, ?_, Format_dateTime_eq_spec t hw h0 h1⟩
    rw [Format_date_eq_spec t hw h0 h1]
    exact isMDY_specDate t

/-- C4, amended, at the date-time of the test, 2020-06-01T15:30:45Z. -/
theorem C4_date_fields_witness :
    (utcTime 2020 6 1 15 30 45).wellFormed = true ∧
      ((utcTime 2020 6 1 15 30 45).Format .date = specDate (utcTime 2020 6 1 15 30 45) ∧
        isMDY ((utcTime 2020 6 1 15 30 45).Format .date) = true ∧
        (utcTime 2020 6 1 15 30 45).Format .dateTime
          = specDateTime (utcTime 2020 6 1 15 30 45)) :=
  ⟨by decide,
    (C4_date_fields (bookedOptions (utcTime 2020 6 1 0 0 0)) changedOptions).2.2.2.2.1
      (utcTime 2020 6 1 15 30 45) (by decide) (by decide) (by decide)⟩

/-! ## C5 -/

/-- C5. For non-nil options, the form that `CreateAppointmentNote` hands to
`PostForm` is present and has, for every key, exactly this content: under
`appointmentid`, `displayonschedule` and `notetext` one value when the option
field is set (a non-empty string, a true boolean), and no other key. With
`AppointmentID` `"1"` and `NoteText` `"test note"` the urlencoded body is
`appointmentid=1&notetext=test+note`: it contains `notetext=test+note` and the
form has no `displayonschedule` key. -/
theorem C5_create_note_form (o : CreateAppointmentNoteOptions) :
    (∀ (α : Type) (h : HTTPClient α) (id : String),
        CreateAppointmentNote h id (some o)
          = h.PostForm (notesPath id) (CreateAppointmentNote.form (some o))) ∧
      (∃ f, CreateAppointmentNote.form (some o) = some f ∧
        ∀ k, f.lookup k =
          if k = "appointmentid" ∧ o.AppointmentID ≠ "" then some [o.AppointmentID]
          else if k = "displayonschedule" ∧ o.DisplayOnSchedule = true then some ["true"]
          else if k = "notetext" ∧ o.NoteText ≠ "" then some [o.NoteText]
          else none) ∧
      (∃ f, CreateAppointmentNote.form (some createNoteOptions) = some f ∧
        f.Encode = "appointmentid=1&notetext=test+note" ∧
        "notetext=test+note".data <:+: f.Encode.data ∧
        f.Has "displayonschedule" = false ∧
        ¬ "displayonschedule".data <:+: f.Encode.data) := by
  refine ⟨?_, ⟨_, rfl, ?_⟩, ⟨_, rfl, by decide, by decide, by decide, by decide⟩⟩
  · intro α h id
    simp only [CreateAppointmentNote]
    split <;> simp_all
  · intro k
    simp only [Values.lookup_ite_Add, Values.lookup_empty]
    by_cases h1 : k = "appointmentid"
    · subst h1
      simp [String.length_pos_iff_ne_empty]
    · by_cases h2 : k = "displayonschedule"
      · subst h2
        cases hd : o.DisplayOnSchedule <;> simp [FormatBool, hd]
      · by_cases h3 : k = "notetext"
        · subst h3
          simp [String.length_pos_iff_ne_empty]
        · simp [h1, h2, h3, Ne.symm h1, Ne.symm h2, Ne.symm h3]

/-! ## C6 -/

/-- C6. Each boolean option field puts its key in the query or form exactly
when the field is true, and the key then has the single value `"true"`; the
string `"false"` is never the value of one of these keys. -/
theorem C6_boolean_fields (c : ListChangedAppointmentsOptions)
    (n : ListAppointmentNotesOptions) (a : CreateAppointmentNoteOptions)
    (u : UpdateAppointmentNoteOptions) :
    ((ListChangedAppointments.query (some c)).lookup "showpatientdetail" =
        if c.ShowPatientDetail = true then some ["true"] else none) ∧
      ((ListChangedAppointments.query (some c)).lookup "leaveunprocessed" =
        if c.LeaveUnprocessed = true then some ["true"] else none) ∧
      ((ListAppointmentNotes.query (some n)).lookup "showdeleted" =
        if n.ShowDeleted = true then some ["true"] else none) ∧
      (∃ f, CreateAppointmentNote.form (some a) = some f ∧
        f.lookup "displayonschedule" =
          if a.DisplayOnSchedule = true then some ["true"] else none) ∧
      (∃ f, UpdateAppointmentNote.form (some u) = some f ∧
        f.lookup "displayonschedule" =
          if u.DisplayOnSchedule = true then some ["true"] else none) := by
  refine ⟨?_, ?_, ?_, ⟨_, rfl, ?_⟩, ⟨_, rfl, ?_⟩⟩
  · simp only [ListChangedAppointments.query, Values.lookup_ite_Add, Values.lookup_empty]
    cases c.ShowPatientDetail <;> simp [FormatBool]
  · simp only [ListChangedAppointments.query, Values.lookup_ite_Add, Values.lookup_empty]
    cases c.LeaveUnprocessed <;> simp [FormatBool]
  · simp only [ListAppointmentNotes.query, Values.lookup_ite_Add, Values.lookup_empty]
    cases n.ShowDeleted <;> simp [FormatBool]
  · simp only [Values.lookup_ite_Add, Values.lookup_empty]
    cases a.DisplayOnSchedule <;> simp [FormatBool]
  · simp only [Values.lookup_ite_Add, Values.lookup_empty]
    cases u.DisplayOnSchedule <;> simp [FormatBool]

/-! ## C7 -/

theorem digitsValue_foldl (ds : List Char) (a : Nat) :
    ds.foldl (fun n c => 10 * n + (c.toNat - 48)) a = a * 10 ^ ds.length + digitsValue ds := by
  induction ds generalizing a with
  | nil => simp [digitsValue]
  | cons d ds ih =>
    simp only [List.foldl_cons, List.length_cons, digitsValue]
    rw [ih, ih (10 * 0 + (d.toNat - 48))]
    ring

theorem digitsValue_cons (d : Char) (ds : List Char) :
    digitsValue (d :: ds) = (d.toNat - 48) * 10 ^ ds.length + digitsValue ds := by
  simp only [digitsValue, List.foldl_cons]
  rw [digitsValue_foldl]
  simp [digitsValue]

theorem digitChar_toNat (d : Nat) (h : d < 10) : (Nat.digitChar d).toNat - 48 = d := by
  interval_cases d <;> rfl

theorem digitsValue_toDigitsCore (fuel n : Nat) (ds : List Char) (h : n < fuel) :
    digitsValue (Nat.toDigitsCore 10 fuel n ds) = n * 10 ^ ds.length + digitsValue ds := by
  induction fuel generalizing n ds with
  | zero => omega
  | succ fuel ih =>
    simp only [Nat.toDigitsCore]
    have hd := digitChar_toNat (n % 10) (Nat.mod_lt _ (by decide))
    split
    · rename_i h0
      rw [digitsValue_cons, hd]
      have : n % 10 = n := by omega
      rw [this]
    · rename_i h0
      rw [ih (n / 10) _ (by omega), digitsValue_cons, hd, List.length_cons, pow_succ]
      have hn : n = 10 * (n / 10) + n % 10 := (Nat.div_add_mod n 10).symm
      generalize n / 10 = q at hn ⊢
      generalize n % 10 = r at hn ⊢
      subst hn
      ring

theorem digitsValue_repr (n : Nat) : digitsValue (Nat.repr n).data = n := by
  have h := digitsValue_toDigitsCore (n + 1) n [] (by omega)
  simpa [Nat.repr, Nat.toDigits, List.asString, digitsValue] using h

/-- C7. With a non-nil `Pagination`, `limit` (respectively `offset`) is in the
query of `ListBookedAppointments` exactly when `Limit` (respectively `Offset`) is
greater than 0, with its decimal rendering as the single value; zero and
negative values are not sent, and with a nil `Pagination` neither key is sent.
The rendering of a positive number reads back, digit by digit, as that number;
30 gives `"30"`. -/
theorem C7_limit_offset (o : ListBookedAppointmentsOptions) (p : PaginationOptions) :
    ((ListBookedAppointments.query (some { o with Pagination := some p })).lookup "limit" =
        if p.Limit > 0 then some [Itoa p.Limit] else none) ∧
      ((ListBookedAppointments.query (some { o with Pagination := some p })).lookup "offset" =
        if p.Offset > 0 then some [Itoa p.Offset] else none) ∧
      (ListBookedAppointments.query (some { o with Pagination := none })).lookup "limit"
        = none ∧
      (ListBookedAppointments.query (some { o with Pagination := none })).lookup "offset"
        = none ∧
      (∀ i : Int, 0 < i → (digitsValue (Itoa i).data : Int) = i) ∧
      Itoa 30 = "30" := by
  refine ⟨?_, ?_, ?_, ?_, ?_, by decide⟩
  · simp only [ListBookedAppointments.query, Values.lookup_ite_Add, Values.lookup_empty]
    simp
  · simp only [ListBookedAppointments.query, Values.lookup_ite_Add, Values.lookup_empty]
    simp
  · simp only [ListBookedAppointments.query, Values.lookup_ite_Add, Values.lookup_empty]
    simp
  · simp only [ListBookedAppointments.query, Values.lookup_ite_Add, Values.lookup_empty]
    simp
  · intro i hi
    have hneg : ¬ i < 0 := by omega
    simp only [Itoa, hneg, if_false, digitsValue_repr]
    omega

/-- C7 at the options of the test with `Limit` 30 and `Offset` 0: the rendering
of 30 reads back as 30. -/
theorem C7_limit_offset_witness :
    (0 : Int) < 30 ∧ (digitsValue (Itoa 30).data : Int) = 30 :=
  ⟨by decide,
    (C7_limit_offset (bookedOptions (utcTime 2020 6 1 0 0 0)) ⟨30, 0⟩).2.2.2.2.1 30
      (by decide)⟩

/-! ## C8 -/

theorem utf8Bytes_ascii (c : Char) (h : c.toNat < 128) : utf8Bytes c = [c.toNat] := by
  simp [utf8Bytes, h]

theorem escapeByte_unreserved (c : Char)
    (hs : shouldEscape c.toNat .encodePathSegment = false) :
    escapeByte .encodePathSegment c.toNat = [c] := by
  simp [escapeByte, hs, Char.ofNat_toNat]

theorem escape_chars_unreserved (cs : List Char)
    (h : ∀ c ∈ cs, c.toNat < 128 ∧ shouldEscape c.toNat .encodePathSegment = false) :
    (cs.flatMap utf8Bytes).flatMap (escapeByte .encodePathSegment) = cs := by
  induction cs with
  | nil => rfl
  | cons c cs ih =>
    have hc := h c (List.mem_cons_self _ _)
    have ih' := ih fun d hd => h d (List.mem_cons_of_mem _ hd)
    simp only [List.flatMap_cons, utf8Bytes_ascii c hc.1, List.flatMap_nil, List.append_nil,
      List.singleton_append, escapeByte_unreserved c hc.2, ih']

theorem PathEscape_of_needsNoEscape (v : String) (h : needsNoEscape v = true) :
    PathEscape v = v := by
  simp only [needsNoEscape, List.all_eq_true, Bool.and_eq_true, decide_eq_true_eq,
    Bool.not_eq_true'] at h
  simp only [PathEscape, escape, stringBytes, escape_chars_unreserved v.data h]

theorem String.append_right_injective (p a b : String) (h : p ++ a = p ++ b) : a = b := by
  have hd := congrArg String.data h
  simp only [String.data_append, List.append_cancel_left_eq] at hd
  exact String.ext hd

theorem String.append_left_injective (p a b : String) (h : a ++ p = b ++ p) : a = b := by
  have hd := congrArg String.data h
  simp only [String.data_append, List.append_cancel_right_eq] at hd
  exact String.ext hd

/-- C8, refutation. The id `1/notes` is put in the path as it is: the path of
`GetAppointment` for it is the path of `ListAppointmentNotes` for the id `1`, it
does not contain the percent-encoded id `1%2Fnotes`, and the id `1?x=y` adds a
query to the path. -/
theorem C8_unescaped_id_counterexample :
    GetAppointment.path "1/notes" = notesPath "1" ∧
      PathEscape "1/notes" = "1%2Fnotes" ∧
      ¬ (PathEscape "1/notes").data <:+: (GetAppointment.path "1/notes").data ∧
      GetAppointment.path "1?x=y" = "/appointments/1?x=y" := by
  decide

/-- C8, amended. The path handed to the transport is the template with the
value put in verbatim, without percent-encoding. It is the path with the
percent-encoded value when the value consists of ASCII characters that
`url.PathEscape` leaves as they are; and within one operation with a single
path value, two different values give two different paths. -/
theorem C8_paths_verbatim (id noteID feedType : String) :
    (GetAppointment.path id = "/appointments/" ++ id ∧
        notesPath id = "/appointments/" ++ id ++ "/notes" ∧
        notePath id noteID = "/appointments/" ++ id ++ "/notes/" ++ noteID ∧
        subscriptionPath feedType = "/" ++ feedType ++ "/changed/subscription" ∧
        subscriptionEventsPath feedType = "/" ++ feedType ++ "/changed/subscription/events") ∧
      (needsNoEscape id = true →
        GetAppointment.path id = "/appointments/" ++ PathEscape id ∧
          notesPath id = "/appointments/" ++ PathEscape id ++ "/notes") ∧
      (needsNoEscape id = true → needsNoEscape noteID = true →
        notePath id noteID = "/appointments/" ++ PathEscape id ++ "/notes/"
          ++ PathEscape noteID) ∧
      (needsNoEscape feedType = true →
        subscriptionPath feedType = "/" ++ PathEscape feedType ++ "/changed/subscription" ∧
          subscriptionEventsPath feedType
            = "/" ++ PathEscape feedType ++ "/changed/subscription/events") ∧
      (∀ other : String,
        (GetAppointment.path id = GetAppointment.path other → id = other) ∧
          (notesPath id = notesPath other → id = other) ∧
          (subscriptionPath id = subscriptionPath other → id = other) ∧
          (subscriptionEventsPath id = subscriptionEventsPath other → id = other)) := by
  refine ⟨⟨rfl, rfl, rfl, rfl, rfl⟩, ?_, ?_, ?_, ?_⟩
  · intro h
    rw [PathEscape_of_needsNoEscape id h]
    exact ⟨rfl, rfl⟩
  · intro h1 h2
    rw [PathEscape_of_needsNoEscape id h1, PathEscape_of_needsNoEscape noteID h2]
    rfl
  · intro h
    rw [PathEscape_of_needsNoEscape feedType h]
    exact ⟨rfl, rfl⟩
  · intro other
    refine ⟨?_, ?_, ?_, ?_⟩
    · intro h
      exact String.append_right_injective _ _ _ h
    · intro h
      exact String.append_right_injective _ _ _ (String.append_left_injective _ _ _ h)
    · intro h
      exact String.append_right_injective _ _ _ (String.append_left_injective _ _ _ h)
    · intro h
      exact String.append_right_injective _ _ _ (String.append_left_injective _ _ _ h)

/-- C8, amended, at the ids of the tests, appointment `1` and note `2`, and the
feed `appointments`. -/
theorem C8_paths_verbatim_witness :
    (needsNoEscape "1" = true ∧ needsNoEscape "2" = true) ∧
      notePath "1" "2" = "/appointments/" ++ PathEscape "1" ++ "/notes/" ++ PathEscape "2" ∧
      (GetAppointment.path "1" = "/appointments/" ++ PathEscape "1" ∧
        notesPath "1" = "/appointments/" ++ PathEscape "1" ++ "/notes") ∧
      (GetAppointment.path "1" = GetAppointment.path "1" → "1" = "1") :=
  ⟨by decide,
    (C8_paths_verbatim "1" "2" "appointments").2.2.1 (by decide) (by decide),
    (C8_paths_verbatim "1" "2" "appointments").2.1 (by decide),
    ((C8_paths_verbatim "1" "2" "appointments").2.2.2.2 "1").1⟩

/-! ## C9 -/

/-- C9. In each of the twelve operations of the two files, when the transport
call it makes (`Get`, `PostForm`, `PutForm`, `DeleteForm`) returns the error `e`,
the operation returns that same `e`, with a nil result where it has one. -/
theorem C9_transport_error_returned (e : Error) :
    (∀ (h : HTTPClient (Slice (Ptr Appointment))) (id : String),
        (h.Get (GetAppointment.path id) none (some [])).2 = some e →
          GetAppointment h id = (none, some e)) ∧
      (∀ h : HTTPClient (Ptr listAppointmentCustomFieldsResponse),
        (h.Get "/appointments/customfields" none (some ⟨none⟩)).2 = some e →
          ListAppointmentCustomFields h = some (none, some e)) ∧
      (∀ (h : HTTPClient listBookedAppointmentsResponse) (opts : Ptr ListBookedAppointmentsOptions),
        (h.Get "/appointments/booked" (some (ListBookedAppointments.query opts))
            ⟨none, ⟨"", "", none⟩⟩).2 = some e →
          ListBookedAppointments h opts = (none, some e)) ∧
      (∀ (h : HTTPClient listChangedAppointmentsResponse)
          (opts : Ptr ListChangedAppointmentsOptions),
        (h.Get "/appointments/changed" (some (ListChangedAppointments.query opts)) ⟨none⟩).2
            = some e →
          ListChangedAppointments h opts = (none, some e)) ∧
      (∀ (α : Type) (h : HTTPClient α) (id : String) (opts : Ptr CreateAppointmentNoteOptions),
        h.PostForm (notesPath id) (CreateAppointmentNote.form opts) = some e →
          CreateAppointmentNote h id opts = some e) ∧
      (∀ (h : HTTPClient listAppointmentNotesResponse) (id : String)
          (opts : Ptr ListAppointmentNotesOptions),
        (h.Get (notesPath id) (some (ListAppointmentNotes.query opts)) ⟨none⟩).2 = some e →
          ListAppointmentNotes h id opts = (none, some e)) ∧
      (∀ (α : Type) (h : HTTPClient α) (id noteID : String)
          (opts : Ptr UpdateAppointmentNoteOptions),
        h.PutForm (notePath id noteID) (UpdateAppointmentNote.form opts) = some e →
          UpdateAppointmentNote h id noteID opts = some e) ∧
      (∀ (α : Type) (h : HTTPClient α) (id noteID : String)
          (opts : Ptr DeleteAppointmentNoteOptions),
        h.DeleteForm (notePath id noteID) (DeleteAppointmentNote.form opts) = some e →
          DeleteAppointmentNote h id noteID opts = some e) ∧
      (∀ (h : HTTPClient Subscription) (feedType : String),
        (h.Get (subscriptionPath feedType) none ⟨"", none⟩).2 = some e →
          GetSubscription h feedType = (none, some e)) ∧
      (∀ (h : HTTPClient (Ptr listSubscriptionEventsResponse)) (feedType : String),
        (h.Get (subscriptionEventsPath feedType) none (some ⟨none⟩)).2 = some e →
          ListSubscriptionEvents h feedType = some (none, some e)) ∧
      (∀ (α : Type) (h : HTTPClient α) (feedType : String) (opts : Ptr SubscribeOptions),
        h.PostForm (subscriptionPath feedType) (Subscribe.form opts) = some e →
          Subscribe h feedType opts = some e) ∧
      (∀ (α : Type) (h : HTTPClient α) (feedType : String) (opts : Ptr UnsubscribeOptions),
        h.DeleteForm (subscriptionPath feedType) (Unsubscribe.form opts) = some e →
          Unsubscribe h feedType opts = some e) := by
  refine ⟨?_, ?_, ?_, ?_, ?_, ?_, ?_, ?_, ?_, ?_, ?_, ?_⟩
  · intro h id he
    simp only [GetAppointment, he]
  · intro h he
    simp only [ListAppointmentCustomFields, he]
  · intro h opts he
    simp only [ListBookedAppointments, he]
  · intro h opts he
    simp only [ListChangedAppointments, he]
  · intro α h id opts he
    simp only [CreateAppointmentNote, he]
  · intro h id opts he
    simp only [ListAppointmentNotes, he]
  · intro α h id noteID opts he
    simp only [UpdateAppointmentNote, he]
  · intro α h id noteID opts he
    simp only [DeleteAppointmentNote, he]
  · intro h feedType he
    simp only [GetSubscription, he]
  · intro h feedType he
    simp only [ListSubscriptionEvents, he]
  · intro α h feedType opts he
    simp only [Subscribe, he]
  · intro α h feedType opts he
    simp only [Unsubscribe, he]

/-- C9 at a transport that fails every call with the error `connection refused`:
`GetAppointment`, `ListBookedAppointments`, `CreateAppointmentNote` and `Unsubscribe`
return that error. -/
theorem C9_transport_error_returned_witness :
    ((failingClient ⟨"connection refused"⟩ : HTTPClient (Slice (Ptr Appointment))).Get
          (GetAppointment.path "1") none (some [])).2 = some ⟨"connection refused"⟩ ∧
      GetAppointment (failingClient ⟨"connection refused"⟩) "1"
        = (none, some ⟨"connection refused"⟩) ∧
      ListBookedAppointments (failingClient ⟨"connection refused"⟩)
          (some (bookedOptions (utcTime 2020 6 1 0 0 0)))
        = (none, some ⟨"connection refused"⟩) ∧
      CreateAppointmentNote (failingClient ⟨"connection refused"⟩ : HTTPClient Unit) "1"
          (some createNoteOptions) = some ⟨"connection refused"⟩ ∧
      Unsubscribe (failingClient ⟨"connection refused"⟩ : HTTPClient Unit) "appointments"
          (some ⟨""⟩) = some ⟨"connection refused"⟩ :=
  ⟨rfl,
    (C9_transport_error_returned ⟨"connection refused"⟩).1 (failingClient _) "1" rfl,
    (C9_transport_error_returned ⟨"connection refused"⟩).2.2.1 (failingClient _) _ rfl,
    (C9_transport_error_returned ⟨"connection refused"⟩).2.2.2.2.1 Unit (failingClient _) "1"
      _ rfl,
    (C9_transport_error_returned ⟨"connection refused"⟩).2.2.2.2.2.2.2.2.2.2.2 Unit
      (failingClient _) "appointments" _ rfl⟩

/-! ## C10 -/

/-- C10. When the transport succeeds and leaves the envelope `out` in the decode
target, `ListBookedAppointments` returns, with no error, a result whose
`BookedAppointments` is the `appointments` array of `out`, unchanged, and whose
`Pagination` is `makePaginationResult` of the `next`, `previous` and `totalcount`
of that same `out`. For the envelope with two appointments, `next` ending in
`offset=30`, `previous` ending in `offset=10` and `totalcount` 2, the result has
those two entities and the cursor 30, 10, 2. -/
theorem C10_booked_result (h : HTTPClient listBookedAppointmentsResponse)
    (opts : Ptr ListBookedAppointmentsOptions) (out : listBookedAppointmentsResponse)
    (hok : h.Get "/appointments/booked" (some (ListBookedAppointments.query opts))
      ⟨none, ⟨"", "", none⟩⟩ = (out, none)) :
    ListBookedAppointments h opts =
        (some ⟨out.Appointments,
          makePaginationResult out.toPaginationResponse.Next out.toPaginationResponse.Previous
            out.toPaginationResponse.TotalCount⟩, none) ∧
      (∀ a1 a2 : Ptr BookedAppointment, out = sampleEnvelope a1 a2 →
        ∃ r, ListBookedAppointments h opts = (some r, none) ∧
          r.BookedAppointments = some [a1, a2] ∧ len r.BookedAppointments = 2 ∧
          r.Pagination = some ⟨some 30, some 10, some 2⟩) := by
  have hres : ListBookedAppointments h opts =
      (some ⟨out.Appointments,
        makePaginationResult out.toPaginationResponse.Next out.toPaginationResponse.Previous
          out.toPaginationResponse.TotalCount⟩, none) := by
    simp only [ListBookedAppointments, hok]
  refine ⟨hres, ?_⟩
  intro a1 a2 hout
  subst hout
  refine ⟨_, hres, rfl, rfl, ?_⟩
  simp only [sampleEnvelope]
  decide

/-- C10 at a transport that answers with the envelope of the specification,
for the options of the test. -/
theorem C10_booked_result_witness :
    (respondingClient (sampleEnvelope (some (sampleBooked "1")) (some (sampleBooked "2")))).Get
        "/appointments/booked"
        (some (ListBookedAppointments.query (some (bookedOptions (utcTime 2020 6 1 0 0 0)))))
        ⟨none, ⟨"", "", none⟩⟩
        = (sampleEnvelope (some (sampleBooked "1")) (some (sampleBooked "2")), none) ∧
      ∃ r, ListBookedAppointments
            (respondingClient
              (sampleEnvelope (some (sampleBooked "1")) (some (sampleBooked "2"))))
            (some (bookedOptions (utcTime 2020 6 1 0 0 0))) = (some r, none) ∧
          r.BookedAppointments = some [some (sampleBooked "1"), some (sampleBooked "2")] ∧
          len r.BookedAppointments = 2 ∧
          r.Pagination = some ⟨some 30, some 10, some 2⟩ :=
  ⟨rfl,
    (C10_booked_result
      (respondingClient (sampleEnvelope (some (sampleBooked "1")) (some (sampleBooked "2"))))
      (some (bookedOptions (utcTime 2020 6 1 0 0 0))) _ rfl).2 _ _ rfl⟩

/-! ## C11 -/

/-- C11. In `CreateAppointmentNote`, `UpdateAppointmentNote`,
`DeleteAppointmentNote`, `Subscribe` and `Unsubscribe` the form handed to the
transport is the one built from the options, and it is nil if and only if the
options are nil: options whose fields are all unset give a present form, which
is empty for the three note operations. In `ListBookedAppointments`,
`ListChangedAppointments` and `ListAppointmentNotes` the query is always present;
nil options give the same empty query as the options with every field at its
zero value, and so the same call and the same result. -/
theorem C11_nil_options_and_forms :
    ((∀ o, CreateAppointmentNote.form o = none ↔ o = none) ∧
        (∀ o, UpdateAppointmentNote.form o = none ↔ o = none) ∧
        (∀ o, DeleteAppointmentNote.form o = none ↔ o = none) ∧
        (∀ o, Subscribe.form o = none ↔ o = none) ∧
        (∀ o, Unsubscribe.form o = none ↔ o = none)) ∧
      ((∀ (α : Type) (h : HTTPClient α) (id : String) o,
          CreateAppointmentNote h id o = h.PostForm (notesPath id) (CreateAppointmentNote.form o)) ∧
        (∀ (α : Type) (h : HTTPClient α) (id noteID : String) o,
          UpdateAppointmentNote h id noteID o
            = h.PutForm (notePath id noteID) (UpdateAppointmentNote.form o)) ∧
        (∀ (α : Type) (h : HTTPClient α) (id noteID : String) o,
          DeleteAppointmentNote h id noteID o
            = h.DeleteForm (notePath id noteID) (DeleteAppointmentNote.form o)) ∧
        (∀ (α : Type) (h : HTTPClient α) (feedType : String) o,
          Subscribe h feedType o = h.PostForm (subscriptionPath feedType) (Subscribe.form o)) ∧
        (∀ (α : Type) (h : HTTPClient α) (feedType : String) o,
          Unsubscribe h feedType o
            = h.DeleteForm (subscriptionPath feedType) (Unsubscribe.form o))) ∧
      (CreateAppointmentNote.form (some ⟨"", false, ""⟩) = some Values.empty ∧
        UpdateAppointmentNote.form (some ⟨"", false, "", ""⟩) = some Values.empty ∧
        DeleteAppointmentNote.form (some ⟨"", ""⟩) = some Values.empty ∧
        (Subscribe.form (some ⟨""⟩)).isSome = true ∧
        (Unsubscribe.form (some ⟨""⟩)).isSome = true) ∧
      (ListBookedAppointments.query none = Values.empty ∧
        ListBookedAppointments.query (some zeroBookedOptions) = Values.empty ∧
        ListChangedAppointments.query none = Values.empty ∧
        ListChangedAppointments.query (some zeroChangedOptions) = Values.empty ∧
        ListAppointmentNotes.query none = Values.empty ∧
        ListAppointmentNotes.query (some zeroNotesOptions) = Values.empty) ∧
      ((∀ h, ListBookedAppointments h none = ListBookedAppointments h (some zeroBookedOptions)) ∧
        (∀ h, ListChangedAppointments h none
          = ListChangedAppointments h (some zeroChangedOptions)) ∧
        (∀ h id, ListAppointmentNotes h id none
          = ListAppointmentNotes h id (some zeroNotesOptions))) := by
  have qb : ListBookedAppointments.query (some zeroBookedOptions)
      = ListBookedAppointments.query none := by decide
  have qc : ListChangedAppointments.query (some zeroChangedOptions)
      = ListChangedAppointments.query none := by decide
  have qn : ListAppointmentNotes.query (some zeroNotesOptions)
      = ListAppointmentNotes.query none := by decide
  refine ⟨⟨?_, ?_, ?_, ?_, ?_⟩, ⟨?_, ?_, ?_, ?_, ?_⟩,
    ⟨by decide, by decide, by decide, by decide, by decide⟩,
    ⟨rfl, qb, rfl, qc, rfl, qn⟩, ⟨?_, ?_, ?_⟩⟩
  · intro o
    cases o <;> simp [CreateAppointmentNote.form]
  · intro o
    cases o <;> simp [UpdateAppointmentNote.form]
  · intro o
    cases o <;> simp [DeleteAppointmentNote.form]
  · intro o
    cases o <;> simp [Subscribe.form]
  · intro o
    cases o <;> simp [Unsubscribe.form]
  · intro α h id o
    simp only [CreateAppointmentNote]
    split <;> simp_all
  · intro α h id noteID o
    simp only [UpdateAppointmentNote]
    split <;> simp_all
  · intro α h id noteID o
    simp only [DeleteAppointmentNote]
    split <;> simp_all
  · intro α h feedType o
    simp only [Subscribe]
    split <;> simp_all
  · intro α h feedType o
    simp only [Unsubscribe]
    split <;> simp_all
  · intro h
    simp only [ListBookedAppointments, qb]
  · intro h
    simp only [ListChangedAppointments, qc]
  · intro h id
    simp only [ListAppointmentNotes, qn]

end Athenahealth
